import Mathlib

/-!
Shallow embedding of the Broadcom STB AVS TMON thermal sensor driver
(`drivers/thermal/broadcom/brcmstb_thermal.c`).

The hardware register file is modelled as an explicit `RegState` record,
one field per 32-bit register word.  Register reads and writes go through
`readReg`/`writeReg` indexed by a `RegId`, mirroring the `reg_offs` /
`enable_offs` offsets of the trip-descriptor table.  Stateful driver
functions take a `RegState` and return the updated one; the interrupt
handler additionally returns the list of governor notifications it issued
(`thermal_zone_device_update` calls) and its `irqreturn` value.  Machine
integers are modelled as `Nat` (u32 register words; no intermediate value
overflows 32 bits) and `Int` (C `int` temperatures).
-/

namespace BrcmstbThermal

/-! ### Constants from the source header block -/

def AVS_TMON_TEMP_SLOPE : Nat := 487

def AVS_TMON_TEMP_OFFSET : Int := 410040

def AVS_TMON_TEMP_MAX : Nat := 0x3ff

def AVS_TMON_TEMP_MIN : Int := -88161

def AVS_TMON_TEMP_MASK : Nat := AVS_TMON_TEMP_MAX

/-- `INT_MAX` of the C `int` type. -/
def INT_MAX : Int := 2147483647

/-- `AVS_TMON_EN_TEMP_INT_SRCS_low = BIT(0)` -/
def AVS_TMON_EN_TEMP_INT_SRCS_low : Nat := 1

/-- `AVS_TMON_EN_TEMP_INT_SRCS_high = BIT(1)` -/
def AVS_TMON_EN_TEMP_INT_SRCS_high : Nat := 2

/-- `AVS_TMON_INT_THRESH_low_msk = GENMASK(10, 1)` -/
def AVS_TMON_INT_THRESH_low_msk : Nat := 0x7fe

def AVS_TMON_INT_THRESH_low_shift : Nat := 1

/-- `AVS_TMON_INT_THRESH_high_msk = GENMASK(26, 17)` -/
def AVS_TMON_INT_THRESH_high_msk : Nat := 0x7fe0000

def AVS_TMON_INT_THRESH_high_shift : Nat := 17

/-- `AVS_TMON_EN_OVERTEMP_RESET_msk = BIT(0)` -/
def AVS_TMON_EN_OVERTEMP_RESET_msk : Nat := 1

/-- `AVS_TMON_RESET_THRESH_msk = GENMASK(10, 1)` -/
def AVS_TMON_RESET_THRESH_msk : Nat := 0x7fe

def AVS_TMON_RESET_THRESH_shift : Nat := 1

/-! ### The register file -/

/-- Identities of the registers the driver core touches, standing for the
byte offsets `AVS_TMON_STATUS` (0x00), `AVS_TMON_EN_OVERTEMP_RESET` (0x04),
`AVS_TMON_RESET_THRESH` (0x08), `AVS_TMON_EN_TEMP_INT_SRCS` (0x14),
`AVS_TMON_INT_THRESH` (0x18) and `AVS_TMON_TEMP_INT_CODE` (0x1c). -/
inductive RegId where
  | status
  | enOvertempReset
  | resetThresh
  | enTempIntSrcs
  | intThresh
  | tempIntCode
deriving DecidableEq, Repr

/-- The live register file (the `SensorState` of the design): one `Nat`
per 32-bit register word. -/
structure RegState where
  status : Nat
  enOvertempReset : Nat
  resetThresh : Nat
  enTempIntSrcs : Nat
  intThresh : Nat
  tempIntCode : Nat
deriving DecidableEq, Repr

def readReg (s : RegState) : RegId → Nat
  | .status => s.status
  | .enOvertempReset => s.enOvertempReset
  | .resetThresh => s.resetThresh
  | .enTempIntSrcs => s.enTempIntSrcs
  | .intThresh => s.intThresh
  | .tempIntCode => s.tempIntCode

def writeReg (s : RegState) (r : RegId) (v : Nat) : RegState :=
  match r with
  | .status => { s with status := v }
  | .enOvertempReset => { s with enOvertempReset := v }
  | .resetThresh => { s with resetThresh := v }
  | .enTempIntSrcs => { s with enTempIntSrcs := v }
  | .intThresh => { s with intThresh := v }
  | .tempIntCode => { s with tempIntCode := v }

/-- The C `~mask` on a `u32`: complement within 32 bits. -/
def compl32 (m : Nat) : Nat := 0xffffffff ^^^ m

/-! ### Trip descriptor table -/

inductive avs_tmon_trip_type where
  | TMON_TRIP_TYPE_LOW
  | TMON_TRIP_TYPE_HIGH
  | TMON_TRIP_TYPE_RESET
deriving DecidableEq, Repr

/-- One entry of the static trip-descriptor table. -/
structure avs_tmon_trip where
  enable_offs : RegId
  enable_mask : Nat
  reg_offs : RegId
  reg_msk : Nat
  reg_shift : Nat
deriving Repr

/-- The static `avs_tmon_trips[]` table, indexed by trip type. -/
def avs_tmon_trips : avs_tmon_trip_type → avs_tmon_trip
  | .TMON_TRIP_TYPE_LOW =>
      { enable_offs := .enTempIntSrcs
        enable_mask := AVS_TMON_EN_TEMP_INT_SRCS_low
        reg_offs := .intThresh
        reg_msk := AVS_TMON_INT_THRESH_low_msk
        reg_shift := AVS_TMON_INT_THRESH_low_shift }
  | .TMON_TRIP_TYPE_HIGH =>
      { enable_offs := .enTempIntSrcs
        enable_mask := AVS_TMON_EN_TEMP_INT_SRCS_high
        reg_offs := .intThresh
        reg_msk := AVS_TMON_INT_THRESH_high_msk
        reg_shift := AVS_TMON_INT_THRESH_high_shift }
  | .TMON_TRIP_TYPE_RESET =>
      { enable_offs := .enOvertempReset
        enable_mask := AVS_TMON_EN_OVERTEMP_RESET_msk
        reg_offs := .resetThresh
        reg_msk := AVS_TMON_RESET_THRESH_msk
        reg_shift := AVS_TMON_RESET_THRESH_shift }

/-! ### Code/temperature converter -/

/-- `avs_tmon_code_to_temp`: convert a HW code to a temperature reading in
millidegree celsius: `OFFSET - (int)((code & AVS_TMON_TEMP_MAX) * SLOPE)`. -/
def avs_tmon_code_to_temp (code : Nat) : Int :=
  AVS_TMON_TEMP_OFFSET - (((code &&& AVS_TMON_TEMP_MAX) * AVS_TMON_TEMP_SLOPE : Nat) : Int)

/-- The kernel `DIV_ROUND_UP(n, d) = (n + d - 1) / d`. -/
def DIV_ROUND_UP (n d : Nat) : Nat := (n + d - 1) / d

/-- `avs_tmon_temp_to_code`: convert a temperature (millidegree celsius) to a
HW code, saturating below `AVS_TMON_TEMP_MIN` and at/above the offset, and
rounding the quotient up when `low` is set. -/
def avs_tmon_temp_to_code (temp : Int) (low : Bool) : Nat :=
  if temp < AVS_TMON_TEMP_MIN then AVS_TMON_TEMP_MAX
  else if temp ≥ AVS_TMON_TEMP_OFFSET then 0
  else if low then DIV_ROUND_UP (AVS_TMON_TEMP_OFFSET - temp).toNat AVS_TMON_TEMP_SLOPE
  else (AVS_TMON_TEMP_OFFSET - temp).toNat / AVS_TMON_TEMP_SLOPE

/-! ### Trip register access layer -/

/-- `avs_tmon_trip_enable`: read-modify-write of the trip's enable bit. -/
def avs_tmon_trip_enable (s : RegState) (type : avs_tmon_trip_type) (en : Bool) :
    RegState :=
  let trip := avs_tmon_trips type
  let val := readReg s trip.enable_offs
  let val := if en then val ||| trip.enable_mask else val &&& compl32 trip.enable_mask
  writeReg s trip.enable_offs val

/-- `avs_tmon_get_trip_temp`: read the threshold register, mask and shift out
the field, convert to a temperature. -/
def avs_tmon_get_trip_temp (s : RegState) (type : avs_tmon_trip_type) : Int :=
  let trip := avs_tmon_trips type
  let val := readReg s trip.reg_offs
  avs_tmon_code_to_temp ((val &&& trip.reg_msk) >>> trip.reg_shift)

/-- `avs_tmon_set_trip_temp`: convert the temperature (rounding toward low
temp for the LOW trip), shift into field position, and read-modify-write the
threshold register preserving bits outside the field mask. -/
def avs_tmon_set_trip_temp (s : RegState) (type : avs_tmon_trip_type) (temp : Int) :
    RegState :=
  let trip := avs_tmon_trips type
  let val := avs_tmon_temp_to_code temp (type = .TMON_TRIP_TYPE_LOW)
  let val := (val <<< trip.reg_shift) &&& trip.reg_msk
  let orig := readReg s trip.reg_offs
  let orig := (orig &&& compl32 trip.reg_msk) ||| val
  writeReg s trip.reg_offs orig

/-- `avs_tmon_get_intr_temp`: read the interrupt-captured code and convert. -/
def avs_tmon_get_intr_temp (s : RegState) : Int :=
  avs_tmon_code_to_temp (readReg s .tempIntCode)

/-! ### Governance-facing surface and interrupt handler -/

/-- Per-variant status-register layout (`struct brcmstb_thermal_of_data`,
minus the ops pointer, which carries no data). -/
structure brcmstb_thermal_of_data where
  status_valid_mask : Nat
  status_data_mask : Nat
  status_data_shift : Nat
deriving Repr

/-- `bcm7445_thermal_of_data`: valid = BIT(11), data = GENMASK(10, 1). -/
def bcm7445_thermal_of_data : brcmstb_thermal_of_data :=
  { status_valid_mask := 0x800, status_data_mask := 0x7fe, status_data_shift := 1 }

/-- `bcm2711_thermal_of_data`: valid = BIT(10), data = GENMASK(9, 0). -/
def bcm2711_thermal_of_data : brcmstb_thermal_of_data :=
  { status_valid_mask := 0x400, status_data_mask := 0x3ff, status_data_shift := 0 }

/-- `brcmstb_get_temp`: read status; if the variant's valid bit is unset fail
with `-EIO` (the `NotReady` error, modelled as `Except.error ()`); otherwise
extract the data field, convert, and clamp a negative temperature to 0.
The register state is threaded through unchanged (the function only reads). -/
def brcmstb_get_temp (socdata : brcmstb_thermal_of_data) (s : RegState) :
    Except Unit Int × RegState :=
  let val := readReg s .status
  if val &&& socdata.status_valid_mask = 0 then
    (.error (), s)
  else
    let val := (val &&& socdata.status_data_mask) >>> socdata.status_data_shift
    let t := avs_tmon_code_to_temp val
    (.ok (if t < 0 then 0 else t), s)

inductive irqreturn where
  | IRQ_NONE
  | IRQ_HANDLED
deriving DecidableEq, Repr

/-- Result of one run of the threaded interrupt handler: the updated register
file, the `thermal_zone_device_update` notifications issued (in order, each
carrying the temperature argument), and the handler's return value. -/
structure IrqResult where
  state : RegState
  notifications : List Int
  ret : irqreturn
deriving Repr

/-- `brcmstb_tmon_irq_thread`: read low/high thresholds and the
interrupt-captured temperature, disable whichever trip was crossed, and
notify the thermal zone with the interrupt temperature. -/
def brcmstb_tmon_irq_thread (s : RegState) : IrqResult :=
  let low := avs_tmon_get_trip_temp s .TMON_TRIP_TYPE_LOW
  let high := avs_tmon_get_trip_temp s .TMON_TRIP_TYPE_HIGH
  let intr := avs_tmon_get_intr_temp s
  let s := if intr ≥ high then avs_tmon_trip_enable s .TMON_TRIP_TYPE_HIGH false else s
  let s := if intr ≤ low then avs_tmon_trip_enable s .TMON_TRIP_TYPE_LOW false else s
  { state := s, notifications := [intr], ret := .IRQ_HANDLED }

/-- `brcmstb_set_trips`: disable the LOW trip when `low ≤ -INT_MAX`, else set
its threshold and enable it; disable the HIGH trip when `high == INT_MAX`,
else set its threshold and enable it.  Returns 0 and the new state. -/
def brcmstb_set_trips (s : RegState) (low high : Int) : Int × RegState :=
  let s :=
    if low ≤ -INT_MAX then
      avs_tmon_trip_enable s .TMON_TRIP_TYPE_LOW false
    else
      avs_tmon_trip_enable (avs_tmon_set_trip_temp s .TMON_TRIP_TYPE_LOW low)
        .TMON_TRIP_TYPE_LOW true
  let s :=
    if high = INT_MAX then
      avs_tmon_trip_enable s .TMON_TRIP_TYPE_HIGH false
    else
      avs_tmon_trip_enable (avs_tmon_set_trip_temp s .TMON_TRIP_TYPE_HIGH high)
        .TMON_TRIP_TYPE_HIGH true
  (0, s)

/-! ### Helper lemmas -/

theorem readReg_writeReg (s : RegState) (r r' : RegId) (v : Nat) :
    readReg (writeReg s r v) r' = if r' = r then v else readReg s r' := by
  cases r <;> cases r' <;> simp [readReg, writeReg]

theorem land_1023_eq_mod (x : Nat) : x &&& 1023 = x % 1024 := by
  have h := Nat.and_pow_two_sub_one_eq_mod x 10
  norm_num at h
  exact h

theorem lor_land_self (y m : Nat) : (y ||| m) &&& m = m := by
  apply Nat.eq_of_testBit_eq
  intro i
  simp only [Nat.testBit_and, Nat.testBit_or]
  cases y.testBit i <;> cases m.testBit i <;> rfl

theorem land_lor_self (y m : Nat) : (y &&& m) ||| m = m := by
  apply Nat.eq_of_testBit_eq
  intro i
  simp only [Nat.testBit_and, Nat.testBit_or]
  cases y.testBit i <;> cases m.testBit i <;> rfl

theorem shiftLeft_land_shiftLeft (a b n : Nat) :
    (a <<< n) &&& (b <<< n) = (a &&& b) <<< n := by
  apply Nat.eq_of_testBit_eq
  intro i
  simp only [Nat.testBit_and, Nat.testBit_shiftLeft]
  cases Nat.decLe n i with
  | isTrue h => simp [h]
  | isFalse h => simp [h]

theorem shiftLeft_shiftRight_cancel (x n : Nat) : (x <<< n) >>> n = x := by
  rw [Nat.shiftLeft_eq, Nat.shiftRight_eq_div_pow,
    Nat.mul_div_cancel x (Nat.pos_pow_of_pos n (by norm_num))]

/-! Constant folds for `&&&` on the masks of this driver (stated explicitly
because simp does not reduce `Nat` `&&&` literals in this toolchain). -/

theorem fold_fffffffe_fffffffd : (0xfffffffe &&& 0xfffffffd : Nat) = 0xfffffffc := by decide

theorem fold_fffffffc_1 : (0xfffffffc &&& 1 : Nat) = 0 := by decide

theorem fold_fffffffc_2 : (0xfffffffc &&& 2 : Nat) = 0 := by decide

theorem fold_fffffffd_1 : (0xfffffffd &&& 1 : Nat) = 1 := by decide

theorem fold_fffffffd_2 : (0xfffffffd &&& 2 : Nat) = 0 := by decide

theorem fold_fffffffe_1 : (0xfffffffe &&& 1 : Nat) = 0 := by decide

theorem fold_fffffffe_2 : (0xfffffffe &&& 2 : Nat) = 2 := by decide

theorem fold_2_1 : (2 &&& 1 : Nat) = 0 := by decide

theorem fold_2_2 : (2 &&& 2 : Nat) = 2 := by decide

theorem fold_1_1 : (1 &&& 1 : Nat) = 1 := by decide

theorem fold_1_2 : (1 &&& 2 : Nat) = 0 := by decide

theorem fold_fffff801_7fe : (0xfffff801 &&& 0x7fe : Nat) = 0 := by decide

theorem fold_fffff801_7fe0000 : (0xfffff801 &&& 0x7fe0000 : Nat) = 0x7fe0000 := by decide

theorem fold_f801ffff_7fe : (0xf801ffff &&& 0x7fe : Nat) = 0x7fe := by decide

theorem fold_f801ffff_7fe0000 : (0xf801ffff &&& 0x7fe0000 : Nat) = 0 := by decide

theorem fold_7fe_7fe0000 : (0x7fe &&& 0x7fe0000 : Nat) = 0 := by decide

theorem fold_7fe0000_7fe : (0x7fe0000 &&& 0x7fe : Nat) = 0 := by decide

theorem fold_7fe_7fe : (0x7fe &&& 0x7fe : Nat) = 0x7fe := by decide

theorem fold_7fe0000_7fe0000 : (0x7fe0000 &&& 0x7fe0000 : Nat) = 0x7fe0000 := by decide

theorem fold_1023_1023 : (1023 &&& 1023 : Nat) = 1023 := by decide

theorem decide_low_eq_low :
    (decide (avs_tmon_trip_type.TMON_TRIP_TYPE_LOW = avs_tmon_trip_type.TMON_TRIP_TYPE_LOW))
      = true := rfl

theorem decide_high_eq_low :
    (decide (avs_tmon_trip_type.TMON_TRIP_TYPE_HIGH = avs_tmon_trip_type.TMON_TRIP_TYPE_LOW))
      = false := rfl

/-! ### Claim theorems -/

/-- C5: `avs_tmon_code_to_temp code` equals `410040 - (code & 0x3FF) * 487`
computed in exact integer arithmetic (the mask being mod 1024), with
`avs_tmon_code_to_temp 0 = 410040` and `avs_tmon_code_to_temp 1023 = -88161`
(a negative result). -/
theorem avs_tmon_code_to_temp_spec (code : Nat) :
    avs_tmon_code_to_temp code = 410040 - ((code % 1024 : Nat) : Int) * 487 ∧
    avs_tmon_code_to_temp 0 = 410040 ∧
    avs_tmon_code_to_temp 1023 = -88161 ∧
    avs_tmon_code_to_temp 1023 < 0 := by
  refine ⟨?_, by decide, by decide, by decide⟩
  simp only [avs_tmon_code_to_temp, AVS_TMON_TEMP_OFFSET, AVS_TMON_TEMP_MAX,
    AVS_TMON_TEMP_SLOPE, land_1023_eq_mod]
  push_cast
  ring

/-- C4: `avs_tmon_temp_to_code` saturates to code 1023 below −88161 and to
code 0 at or above 410040; otherwise it returns `(410040 - t) / 487` with
floor division when `low` is false and ceiling division (floor plus one
exactly when 487 does not divide `410040 - t`) when `low` is true. -/
theorem avs_tmon_temp_to_code_spec (t : Int) (b : Bool) :
    (t < -88161 → avs_tmon_temp_to_code t b = 1023) ∧
    (410040 ≤ t → avs_tmon_temp_to_code t b = 0) ∧
    (-88161 ≤ t → t < 410040 →
      avs_tmon_temp_to_code t false = (410040 - t).toNat / 487 ∧
      avs_tmon_temp_to_code t true =
        (410040 - t).toNat / 487 +
          (if (410040 - t).toNat % 487 = 0 then 0 else 1)) := by
  refine ⟨?_, ?_, ?_⟩
  · intro h
    cases b <;>
      simp only [avs_tmon_temp_to_code, AVS_TMON_TEMP_MIN, AVS_TMON_TEMP_OFFSET,
        AVS_TMON_TEMP_MAX] <;>
      split_ifs <;> omega
  · intro h
    cases b <;>
      simp only [avs_tmon_temp_to_code, AVS_TMON_TEMP_MIN, AVS_TMON_TEMP_OFFSET,
        AVS_TMON_TEMP_MAX] <;>
      split_ifs <;> omega
  · intro h1 h2
    simp only [avs_tmon_temp_to_code, DIV_ROUND_UP, AVS_TMON_TEMP_MIN,
      AVS_TMON_TEMP_OFFSET, AVS_TMON_TEMP_MAX, AVS_TMON_TEMP_SLOPE,
      if_neg (by omega : ¬t < (-88161 : Int)), if_neg (by omega : ¬t ≥ (410040 : Int)),
      if_true, if_false, Bool.false_eq_true]
    refine ⟨trivial, ?_⟩
    by_cases h : (410040 - t).toNat % 487 = 0 <;> simp [h] <;> omega

/-- C4 witness: saturation and both rounded quotients at concrete inputs. -/
theorem avs_tmon_temp_to_code_spec_witness :
    avs_tmon_temp_to_code (-100000) true = 1023 ∧
    avs_tmon_temp_to_code 500000 false = 0 ∧
    avs_tmon_temp_to_code 50000 false = 739 := by
  refine ⟨(avs_tmon_temp_to_code_spec (-100000) true).1 (by decide),
    (avs_tmon_temp_to_code_spec 500000 false).2.1 (by decide), ?_⟩
  have h := ((avs_tmon_temp_to_code_spec 50000 false).2.2 (by decide) (by decide)).1
  rw [h]
  decide

/-- C6: there is a non-saturating temperature where the `low` rounding mode
yields exactly one more than the `high` mode, and the two modes agree at
every temperature where 487 divides `410040 - t`. -/
theorem avs_tmon_temp_to_code_rounding :
    (∃ t : Int, AVS_TMON_TEMP_MIN ≤ t ∧ t < AVS_TMON_TEMP_OFFSET ∧
      avs_tmon_temp_to_code t true = avs_tmon_temp_to_code t false + 1) ∧
    ∀ t : Int, (410040 - t) % 487 = 0 →
      avs_tmon_temp_to_code t true = avs_tmon_temp_to_code t false := by
  constructor
  · exact ⟨410039, by decide, by decide, by decide⟩
  · intro t ht
    simp only [avs_tmon_temp_to_code, DIV_ROUND_UP, AVS_TMON_TEMP_MIN,
      AVS_TMON_TEMP_OFFSET, AVS_TMON_TEMP_MAX, AVS_TMON_TEMP_SLOPE]
    split_ifs <;> omega

/-- C7: on the code range [0, 1023], converting a code to a temperature and
back (with floor rounding) recovers the code exactly, and
`avs_tmon_code_to_temp` is strictly decreasing. -/
theorem avs_tmon_code_temp_roundtrip (c1 c2 : Nat) (h1 : c1 ≤ 1023) (h2 : c2 ≤ 1023) :
    avs_tmon_temp_to_code (avs_tmon_code_to_temp c1) false = c1 ∧
    (c1 < c2 → avs_tmon_code_to_temp c2 < avs_tmon_code_to_temp c1) := by
  have e1 : c1 &&& 1023 = c1 := by rw [land_1023_eq_mod]; omega
  have e2 : c2 &&& 1023 = c2 := by rw [land_1023_eq_mod]; omega
  constructor
  · simp only [avs_tmon_code_to_temp, avs_tmon_temp_to_code, DIV_ROUND_UP,
      AVS_TMON_TEMP_MIN, AVS_TMON_TEMP_OFFSET, AVS_TMON_TEMP_MAX,
      AVS_TMON_TEMP_SLOPE, e1]
    split_ifs <;> omega
  · intro hlt
    simp only [avs_tmon_code_to_temp, AVS_TMON_TEMP_OFFSET, AVS_TMON_TEMP_MAX,
      AVS_TMON_TEMP_SLOPE, e1, e2]
    omega

/-- C7 witness: exact round-trip at code 5 and strict monotonicity
between codes 5 and 7. -/
theorem avs_tmon_code_temp_roundtrip_witness :
    avs_tmon_temp_to_code (avs_tmon_code_to_temp 5) false = 5 ∧
    avs_tmon_code_to_temp 7 < avs_tmon_code_to_temp 5 :=
  ⟨(avs_tmon_code_temp_roundtrip 5 7 (by decide) (by decide)).1,
   (avs_tmon_code_temp_roundtrip 5 7 (by decide) (by decide)).2 (by decide)⟩

/-- C9: for every temperature and rounding mode the computed code is at most
1023, so the shift-and-mask in `avs_tmon_set_trip_temp` never truncates it:
masking the shifted code with the trip's field mask is the identity, for
every trip type. -/
theorem avs_tmon_temp_to_code_range (t : Int) (b : Bool) (type : avs_tmon_trip_type) :
    avs_tmon_temp_to_code t b ≤ 1023 ∧
    (avs_tmon_temp_to_code t b <<< (avs_tmon_trips type).reg_shift) &&&
        (avs_tmon_trips type).reg_msk
      = avs_tmon_temp_to_code t b <<< (avs_tmon_trips type).reg_shift := by
  have hle : avs_tmon_temp_to_code t b ≤ 1023 := by
    cases b <;>
      simp only [avs_tmon_temp_to_code, DIV_ROUND_UP, AVS_TMON_TEMP_MIN,
        AVS_TMON_TEMP_OFFSET, AVS_TMON_TEMP_MAX, AVS_TMON_TEMP_SLOPE] <;>
      split_ifs <;> omega
  refine ⟨hle, ?_⟩
  have hid : avs_tmon_temp_to_code t b &&& 1023 = avs_tmon_temp_to_code t b := by
    rw [land_1023_eq_mod]; omega
  cases type with
  | TMON_TRIP_TYPE_LOW =>
    simp only [avs_tmon_trips, AVS_TMON_INT_THRESH_low_msk, AVS_TMON_INT_THRESH_low_shift]
    rw [show (0x7fe : Nat) = 1023 <<< 1 by decide, shiftLeft_land_shiftLeft, hid]
  | TMON_TRIP_TYPE_HIGH =>
    simp only [avs_tmon_trips, AVS_TMON_INT_THRESH_high_msk, AVS_TMON_INT_THRESH_high_shift]
    rw [show (0x7fe0000 : Nat) = 1023 <<< 17 by decide, shiftLeft_land_shiftLeft, hid]
  | TMON_TRIP_TYPE_RESET =>
    simp only [avs_tmon_trips, AVS_TMON_RESET_THRESH_msk, AVS_TMON_RESET_THRESH_shift]
    rw [show (0x7fe : Nat) = 1023 <<< 1 by decide, shiftLeft_land_shiftLeft, hid]

/-- C10: `brcmstb_set_trips` returns 0 for every pair of bounds and every
register state; it has no error path. -/
theorem brcmstb_set_trips_ret (s : RegState) (low high : Int) :
    (brcmstb_set_trips s low high).1 = 0 := rfl

/-- C3: `brcmstb_get_temp` fails (with the `NotReady` error `-EIO`) exactly
when the variant's valid bit in the status register is unset; the register
state is returned unchanged; and on success the reported temperature is the
non-negative clamp of the converted data field. -/
theorem brcmstb_get_temp_spec (socdata : brcmstb_thermal_of_data) (s : RegState) :
    ((brcmstb_get_temp socdata s).1 = .error () ↔
      s.status &&& socdata.status_valid_mask = 0) ∧
    (brcmstb_get_temp socdata s).2 = s ∧
    (s.status &&& socdata.status_valid_mask ≠ 0 →
      (brcmstb_get_temp socdata s).1 =
        .ok (max 0 (avs_tmon_code_to_temp
          ((s.status &&& socdata.status_data_mask) >>> socdata.status_data_shift)))) := by
  have hmax : ∀ x : Int, (if x < 0 then (0 : Int) else x) = max 0 x := by
    intro x
    rcases lt_or_le x 0 with hx | hx
    · rw [if_pos hx, max_eq_left hx.le]
    · rw [if_neg (not_lt.mpr hx), max_eq_right hx]
  by_cases h : s.status &&& socdata.status_valid_mask = 0
  · simp [brcmstb_get_temp, readReg, h]
  · refine ⟨?_, ?_, fun _ => ?_⟩
    · simp [brcmstb_get_temp, readReg, h]
    · simp [brcmstb_get_temp, readReg, h]
    · simp [brcmstb_get_temp, readReg, h, hmax]

/-- C3 witness: on the BCM7445 layout, a status word with the valid bit unset
yields the error with the state unchanged, and one with the valid bit set
yields the converted clamped temperature. -/
theorem brcmstb_get_temp_spec_witness :
    (brcmstb_get_temp bcm7445_thermal_of_data
        { status := 0x400, enOvertempReset := 0, resetThresh := 0,
          enTempIntSrcs := 0, intThresh := 0, tempIntCode := 0 }).1 = .error () ∧
    (brcmstb_get_temp bcm7445_thermal_of_data
        { status := 0x800 ||| (700 <<< 1), enOvertempReset := 0, resetThresh := 0,
          enTempIntSrcs := 0, intThresh := 0, tempIntCode := 0 }).1 = .ok 69140 := by
  constructor
  · exact (brcmstb_get_temp_spec bcm7445_thermal_of_data _).1.mpr (by decide)
  · have h := (brcmstb_get_temp_spec bcm7445_thermal_of_data
      { status := 0x800 ||| (700 <<< 1), enOvertempReset := 0, resetThresh := 0,
        enTempIntSrcs := 0, intThresh := 0, tempIntCode := 0 }).2.2 (by decide)
    rw [h]
    simp only [Except.ok.injEq]
    decide

/-- C1: when the interrupt temperature is at least the HIGH threshold and
strictly above the LOW threshold, the handler clears the HIGH enable bit,
leaves the LOW enable bit unchanged, issues exactly one notification carrying
the interrupt-captured temperature (not a fresh status read), and returns
`IRQ_HANDLED`. -/
theorem brcmstb_tmon_irq_thread_high_trip (s : RegState)
    (hhigh : avs_tmon_get_trip_temp s .TMON_TRIP_TYPE_HIGH ≤ avs_tmon_get_intr_temp s)
    (hlow : avs_tmon_get_trip_temp s .TMON_TRIP_TYPE_LOW < avs_tmon_get_intr_temp s) :
    (brcmstb_tmon_irq_thread s).state.enTempIntSrcs &&& AVS_TMON_EN_TEMP_INT_SRCS_high
        = 0 ∧
    (brcmstb_tmon_irq_thread s).state.enTempIntSrcs &&& AVS_TMON_EN_TEMP_INT_SRCS_low
        = s.enTempIntSrcs &&& AVS_TMON_EN_TEMP_INT_SRCS_low ∧
    (brcmstb_tmon_irq_thread s).notifications = [avs_tmon_get_intr_temp s] ∧
    (brcmstb_tmon_irq_thread s).ret = .IRQ_HANDLED := by
  simp only [brcmstb_tmon_irq_thread, if_pos hhigh, if_neg (not_le.mpr hlow),
    avs_tmon_trip_enable, avs_tmon_trips, readReg, writeReg, compl32,
    AVS_TMON_EN_TEMP_INT_SRCS_low, AVS_TMON_EN_TEMP_INT_SRCS_high,
    Bool.false_eq_true, if_false]
  refine ⟨?_, ?_, ?_, ?_⟩ <;>
    first
      | trivial
      | simp only [show (0xffffffff ^^^ 2 : Nat) = 0xfffffffd by decide,
          Nat.and_assoc, fold_fffffffd_1, fold_fffffffd_2, Nat.and_zero]

/-- C1 witness: concrete state with LOW threshold code 1023, HIGH threshold
code 739 (50147 mdeg) and interrupt code 700 (69140 mdeg, above both). -/
theorem brcmstb_tmon_irq_thread_high_trip_witness :
    (brcmstb_tmon_irq_thread
        { status := 0, enOvertempReset := 0, resetThresh := 0, enTempIntSrcs := 3,
          intThresh := (739 <<< 17) ||| (1023 <<< 1),
          tempIntCode := 700 }).state.enTempIntSrcs &&& AVS_TMON_EN_TEMP_INT_SRCS_high
        = 0 ∧
    (brcmstb_tmon_irq_thread
        { status := 0, enOvertempReset := 0, resetThresh := 0, enTempIntSrcs := 3,
          intThresh := (739 <<< 17) ||| (1023 <<< 1),
          tempIntCode := 700 }).state.enTempIntSrcs &&& AVS_TMON_EN_TEMP_INT_SRCS_low
        = 3 &&& AVS_TMON_EN_TEMP_INT_SRCS_low ∧
    (brcmstb_tmon_irq_thread
        { status := 0, enOvertempReset := 0, resetThresh := 0, enTempIntSrcs := 3,
          intThresh := (739 <<< 17) ||| (1023 <<< 1),
          tempIntCode := 700 }).notifications = [69140] := by
  have h := brcmstb_tmon_irq_thread_high_trip
    { status := 0, enOvertempReset := 0, resetThresh := 0, enTempIntSrcs := 3,
      intThresh := (739 <<< 17) ||| (1023 <<< 1), tempIntCode := 700 }
    (by decide) (by decide)
  refine ⟨h.1, h.2.1, ?_⟩
  rw [h.2.2.1]
  decide

/-- C2: `brcmstb_set_trips` clears the LOW enable bit exactly when
`low ≤ -INT_MAX` (otherwise it arms LOW, with the LOW threshold field set
from `avs_tmon_temp_to_code low true`), clears the HIGH enable bit exactly
when `high = INT_MAX` (otherwise it arms HIGH with the threshold from
`avs_tmon_temp_to_code high false`); a disarmed trip's threshold field is
left unchanged, and with both bounds absent the threshold register is not
written at all. -/
theorem brcmstb_set_trips_spec (s : RegState) (low high : Int) :
    ((brcmstb_set_trips s low high).2.enTempIntSrcs &&& AVS_TMON_EN_TEMP_INT_SRCS_low
        = if low ≤ -INT_MAX then 0 else AVS_TMON_EN_TEMP_INT_SRCS_low) ∧
    ((brcmstb_set_trips s low high).2.enTempIntSrcs &&& AVS_TMON_EN_TEMP_INT_SRCS_high
        = if high = INT_MAX then 0 else AVS_TMON_EN_TEMP_INT_SRCS_high) ∧
    ((brcmstb_set_trips s low high).2.intThresh &&& AVS_TMON_INT_THRESH_low_msk
        = if low ≤ -INT_MAX then s.intThresh &&& AVS_TMON_INT_THRESH_low_msk
          else (avs_tmon_temp_to_code low true <<< AVS_TMON_INT_THRESH_low_shift)
                 &&& AVS_TMON_INT_THRESH_low_msk) ∧
    ((brcmstb_set_trips s low high).2.intThresh &&& AVS_TMON_INT_THRESH_high_msk
        = if high = INT_MAX then s.intThresh &&& AVS_TMON_INT_THRESH_high_msk
          else (avs_tmon_temp_to_code high false <<< AVS_TMON_INT_THRESH_high_shift)
                 &&& AVS_TMON_INT_THRESH_high_msk) ∧
    (low ≤ -INT_MAX → high = INT_MAX →
      (brcmstb_set_trips s low high).2.intThresh = s.intThresh) := by
  by_cases hl : low ≤ -INT_MAX <;> by_cases hh : high = INT_MAX <;>
    simp only [brcmstb_set_trips, avs_tmon_trip_enable, avs_tmon_set_trip_temp,
      avs_tmon_trips, readReg, writeReg, compl32, hl, hh, if_true, if_false,
      AVS_TMON_EN_TEMP_INT_SRCS_low, AVS_TMON_EN_TEMP_INT_SRCS_high,
      AVS_TMON_INT_THRESH_low_msk, AVS_TMON_INT_THRESH_low_shift,
      AVS_TMON_INT_THRESH_high_msk, AVS_TMON_INT_THRESH_high_shift] <;>
    refine ⟨?_, ?_, ?_, ?_, ?_⟩ <;>
    first
      | exact trivial
      | simp only [Bool.false_eq_true, if_false, if_true, decide_True,
          show (0xffffffff ^^^ 1 : Nat) = 0xfffffffe by decide,
          show (0xffffffff ^^^ 2 : Nat) = 0xfffffffd by decide,
          show (0xffffffff ^^^ 0x7fe : Nat) = 0xfffff801 by decide,
          show (0xffffffff ^^^ 0x7fe0000 : Nat) = 0xf801ffff by decide,
          Nat.and_distrib_right, Nat.and_assoc, lor_land_self, land_lor_self,
          decide_low_eq_low, decide_high_eq_low,
          fold_fffffffe_fffffffd, fold_fffffffc_1, fold_fffffffc_2, fold_fffffffd_1,
          fold_fffffffd_2, fold_fffffffe_1, fold_fffffffe_2, fold_2_1, fold_2_2,
          fold_1_1, fold_1_2, fold_fffff801_7fe, fold_fffff801_7fe0000,
          fold_f801ffff_7fe, fold_f801ffff_7fe0000, fold_7fe_7fe0000, fold_7fe0000_7fe,
          fold_7fe_7fe, fold_7fe0000_7fe0000, Nat.and_zero, Nat.zero_and, Nat.or_zero,
          Nat.zero_or, true_implies, false_implies, implies_true]

/-- C2 witness: `setTrips(low = -INT_MAX, high = 50000)` on a zeroed register
file leaves LOW disarmed and arms HIGH with the code 739 from
`avs_tmon_temp_to_code 50000 false` in the HIGH threshold field. -/
theorem brcmstb_set_trips_spec_witness :
    ((brcmstb_set_trips
        { status := 0, enOvertempReset := 0, resetThresh := 0, enTempIntSrcs := 0,
          intThresh := 0, tempIntCode := 0 } (-INT_MAX) 50000).2.enTempIntSrcs
        &&& AVS_TMON_EN_TEMP_INT_SRCS_low = 0) ∧
    ((brcmstb_set_trips
        { status := 0, enOvertempReset := 0, resetThresh := 0, enTempIntSrcs := 0,
          intThresh := 0, tempIntCode := 0 } (-INT_MAX) 50000).2.enTempIntSrcs
        &&& AVS_TMON_EN_TEMP_INT_SRCS_high = AVS_TMON_EN_TEMP_INT_SRCS_high) ∧
    ((brcmstb_set_trips
        { status := 0, enOvertempReset := 0, resetThresh := 0, enTempIntSrcs := 0,
          intThresh := 0, tempIntCode := 0 } (-INT_MAX) 50000).2.intThresh
        &&& AVS_TMON_INT_THRESH_high_msk = 739 <<< 17) := by
  have h := brcmstb_set_trips_spec
    { status := 0, enOvertempReset := 0, resetThresh := 0, enTempIntSrcs := 0,
      intThresh := 0, tempIntCode := 0 } (-INT_MAX) 50000
  refine ⟨?_, ?_, ?_⟩
  · rw [h.1]; decide
  · rw [h.2.1]; decide
  · rw [h.2.2.2.1]; decide

/-- C8: `avs_tmon_set_trip_temp` writes only its trip's threshold register,
preserving every bit outside the trip's field mask; consequently writing the
LOW threshold after the HIGH threshold leaves the HIGH reading unchanged,
that reading equals the round-tripped HIGH temperature, and for a
non-saturating temperature it is within one slope step (487 mdeg) above the
requested value. -/
theorem avs_tmon_set_trip_temp_frame (type : avs_tmon_trip_type) (t : Int) (s : RegState) :
    (∀ r : RegId, r ≠ (avs_tmon_trips type).reg_offs →
      readReg (avs_tmon_set_trip_temp s type t) r = readReg s r) ∧
    (∀ i : Nat, (avs_tmon_trips type).reg_msk.testBit i = false →
      readReg s (avs_tmon_trips type).reg_offs < 2 ^ 32 →
      (readReg (avs_tmon_set_trip_temp s type t) (avs_tmon_trips type).reg_offs).testBit i
        = (readReg s (avs_tmon_trips type).reg_offs).testBit i) ∧
    (∀ h l : Int, ∀ s' : RegState,
      avs_tmon_get_trip_temp
          (avs_tmon_set_trip_temp (avs_tmon_set_trip_temp s' .TMON_TRIP_TYPE_HIGH h)
            .TMON_TRIP_TYPE_LOW l) .TMON_TRIP_TYPE_HIGH
        = avs_tmon_get_trip_temp (avs_tmon_set_trip_temp s' .TMON_TRIP_TYPE_HIGH h)
            .TMON_TRIP_TYPE_HIGH) ∧
    (∀ h : Int, ∀ s' : RegState,
      avs_tmon_get_trip_temp (avs_tmon_set_trip_temp s' .TMON_TRIP_TYPE_HIGH h)
          .TMON_TRIP_TYPE_HIGH
        = avs_tmon_code_to_temp (avs_tmon_temp_to_code h false)) ∧
    (∀ h : Int, -88161 ≤ h → h < 410040 →
      h ≤ avs_tmon_code_to_temp (avs_tmon_temp_to_code h false) ∧
      avs_tmon_code_to_temp (avs_tmon_temp_to_code h false) < h + 487) := by
  refine ⟨?_, ?_, ?_, ?_, ?_⟩
  · intro r hr
    cases type <;>
      simp only [avs_tmon_set_trip_temp, avs_tmon_trips, readReg_writeReg] <;>
      simp only [avs_tmon_trips] at hr <;>
      rw [if_neg hr]
  · intro i hbit hlt
    cases type <;>
      simp only [avs_tmon_trips] at hbit hlt ⊢ <;>
      simp only [avs_tmon_set_trip_temp, avs_tmon_trips, readReg, writeReg, compl32,
        AVS_TMON_INT_THRESH_low_msk, AVS_TMON_INT_THRESH_low_shift,
        AVS_TMON_INT_THRESH_high_msk, AVS_TMON_INT_THRESH_high_shift,
        AVS_TMON_RESET_THRESH_msk, AVS_TMON_RESET_THRESH_shift] at hbit hlt ⊢ <;>
      simp only [Nat.testBit_or, Nat.testBit_and, Nat.testBit_xor, hbit,
        Bool.and_false, Bool.or_false, Bool.xor_false,
        show (0xffffffff : Nat) = 2 ^ 32 - 1 by norm_num,
        Nat.testBit_two_pow_sub_one] <;>
      rcases Nat.lt_or_ge i 32 with hi | hi
    · simp [hi]
    · simp [Nat.testBit_lt_two_pow (lt_of_lt_of_le hlt
        (Nat.pow_le_pow_right (by norm_num) hi))]
    · simp [hi]
    · simp [Nat.testBit_lt_two_pow (lt_of_lt_of_le hlt
        (Nat.pow_le_pow_right (by norm_num) hi))]
    · simp [hi]
    · simp [Nat.testBit_lt_two_pow (lt_of_lt_of_le hlt
        (Nat.pow_le_pow_right (by norm_num) hi))]
  · intro h l s'
    simp only [avs_tmon_get_trip_temp, avs_tmon_set_trip_temp, avs_tmon_trips,
      readReg, writeReg, compl32, AVS_TMON_INT_THRESH_low_msk,
      AVS_TMON_INT_THRESH_low_shift, AVS_TMON_INT_THRESH_high_msk,
      AVS_TMON_INT_THRESH_high_shift, Nat.and_distrib_right, Nat.and_assoc,
      decide_low_eq_low, decide_high_eq_low,
      show (0xffffffff ^^^ 0x7fe : Nat) = 0xfffff801 by decide,
      show (0xffffffff ^^^ 0x7fe0000 : Nat) = 0xf801ffff by decide,
      fold_fffff801_7fe, fold_fffff801_7fe0000, fold_f801ffff_7fe,
      fold_f801ffff_7fe0000, fold_7fe_7fe0000, fold_7fe0000_7fe, fold_7fe_7fe,
      fold_7fe0000_7fe0000, Nat.and_zero, Nat.zero_and, Nat.or_zero, Nat.zero_or]
  · intro h s'
    simp only [avs_tmon_get_trip_temp, avs_tmon_set_trip_temp, avs_tmon_trips,
      readReg, writeReg, compl32, AVS_TMON_INT_THRESH_high_msk,
      AVS_TMON_INT_THRESH_high_shift, Nat.and_distrib_right, Nat.and_assoc,
      decide_high_eq_low,
      show (0xffffffff ^^^ 0x7fe0000 : Nat) = 0xf801ffff by decide,
      fold_f801ffff_7fe0000, fold_7fe0000_7fe0000, Nat.and_zero, Nat.zero_or]
    simp only [show (0x7fe0000 : Nat) = 1023 <<< 17 by decide,
      shiftLeft_land_shiftLeft, shiftLeft_shiftRight_cancel]
    simp only [avs_tmon_code_to_temp, AVS_TMON_TEMP_MAX, Nat.and_assoc, fold_1023_1023]
  · intro h h1 h2
    simp only [avs_tmon_code_to_temp, AVS_TMON_TEMP_OFFSET, AVS_TMON_TEMP_MAX,
      AVS_TMON_TEMP_SLOPE, land_1023_eq_mod]
    simp only [avs_tmon_temp_to_code, DIV_ROUND_UP, AVS_TMON_TEMP_MIN,
      AVS_TMON_TEMP_OFFSET, AVS_TMON_TEMP_MAX, AVS_TMON_TEMP_SLOPE,
      if_neg (by omega : ¬h < (-88161 : Int)),
      if_neg (by omega : ¬h ≥ (410040 : Int)), Bool.false_eq_true, if_false]
    constructor <;> omega

/-- C8 witness: on a register file with all-ones threshold register, setting
HIGH to 50000 then LOW to 10000 leaves the HIGH reading at 50147 (within 487
above 50000), and the LOW write does not disturb the HIGH field. -/
theorem avs_tmon_set_trip_temp_frame_witness :
    avs_tmon_get_trip_temp
        (avs_tmon_set_trip_temp
          (avs_tmon_set_trip_temp
            { status := 0, enOvertempReset := 0, resetThresh := 0, enTempIntSrcs := 0,
              intThresh := 0xffffffff, tempIntCode := 0 } .TMON_TRIP_TYPE_HIGH 50000)
          .TMON_TRIP_TYPE_LOW 10000) .TMON_TRIP_TYPE_HIGH
      = avs_tmon_get_trip_temp
          (avs_tmon_set_trip_temp
            { status := 0, enOvertempReset := 0, resetThresh := 0, enTempIntSrcs := 0,
              intThresh := 0xffffffff, tempIntCode := 0 } .TMON_TRIP_TYPE_HIGH 50000)
          .TMON_TRIP_TYPE_HIGH ∧
    avs_tmon_get_trip_temp
        (avs_tmon_set_trip_temp
          { status := 0, enOvertempReset := 0, resetThresh := 0, enTempIntSrcs := 0,
            intThresh := 0xffffffff, tempIntCode := 0 } .TMON_TRIP_TYPE_HIGH 50000)
        .TMON_TRIP_TYPE_HIGH = 50147 := by
  have h := avs_tmon_set_trip_temp_frame .TMON_TRIP_TYPE_HIGH 0
    { status := 0, enOvertempReset := 0, resetThresh := 0, enTempIntSrcs := 0,
      intThresh := 0xffffffff, tempIntCode := 0 }
  refine ⟨h.2.2.1 50000 10000 _, ?_⟩
  rw [h.2.2.2.1 50000 _]
  decide

end BrcmstbThermal
